import Mathlib

/-!
Shallow embedding of the `researcher_agent` repository (a Python A2A research
agent) and verification of its specification claims.

Source files embedded:
* `research_agent.py` — `ResearchResult`, `get_api_key`, `ResearchAgent.invoke`
  (output parsing around the literal marker `"Sources:"`), `ResearchAgent.stream`;
* `research_task_manager.py` — `ResearchTaskManager` (`on_send_task`,
  `on_send_task_subscribe`, `_update_store`, `_invoke`, `_get_user_query`,
  `_stream_generator`) over an in-memory task store;
* `__main__.py` — the startup sequence of `main`.

External collaborators (the `agent2agent` library's `InMemoryTaskManager` base
class and utilities, and the CrewAI pipeline) are not part of the repository;
where a claim depends on them they are modelled from the specification, with a
doc comment saying so, or abstracted as oracle parameters.
-/

set_option autoImplicit false

namespace ResearcherAgent

/-! ## Python-level primitives -/

/-- Exceptions the embedded Python code can raise. -/
inductive PyError where
  /-- `ValueError(msg)` -/
  | valueError (msg : String)
  /-- `KeyError` on a missing dictionary key -/
  | keyError (key : String)
  /-- `IndexError` on `parts[0]` of an empty list -/
  | indexError
  /-- `NotImplementedError(msg)` -/
  | notImplementedError (msg : String)
  deriving DecidableEq, Repr

/-- Python truthiness of an optional string: `None` and `""` are falsy. -/
def optStrTruthy : Option String → Bool
  | none => false
  | some s => !(s == "")

/-- The whitespace characters removed by Python's `str.strip()`
(space, tab, newline, carriage return, vertical tab, form feed). -/
def isPyWs (c : Char) : Bool :=
  c == ' ' || c == '\t' || c == '\n' || c == '\r' ||
    c == Char.ofNat 11 || c == Char.ofNat 12

/-- `str.strip()` on a character list: drop whitespace from both ends. -/
def pyStripList (cs : List Char) : List Char :=
  ((cs.dropWhile isPyWs).reverse.dropWhile isPyWs).reverse

/-- Python's `str.strip()`. -/
def pyStrip (s : String) : String :=
  String.mk (pyStripList s.data)

/-- Index of the first occurrence of `pat` as a contiguous substring, mirroring
the search performed by Python's `in` operator and `str.split(pat, 1)`. -/
def findSubIdx (pat : List Char) : List Char → Option Nat
  | [] => if pat.isPrefixOf ([] : List Char) then some 0 else none
  | c :: rest =>
    if pat.isPrefixOf (c :: rest) then some 0
    else (findSubIdx pat rest).map (· + 1)

/-- Prepend a character to the first field of a split. -/
def consHead (d : Char) : List (List Char) → List (List Char)
  | [] => [[d]]
  | l :: ls => (d :: l) :: ls

/-- Python's `str.split(sep)` for a single-character separator, on character
lists.  Always returns at least one (possibly empty) field. -/
def splitOnCh (c : Char) : List Char → List (List Char)
  | [] => [[]]
  | d :: rest =>
    if d == c then [] :: splitOnCh c rest
    else consHead d (splitOnCh c rest)

/-- The per-line cleanup `[s.strip() for s in x.split("\n") if s.strip()]`
performed by `ResearchAgent.invoke` on the sources section, on character
lists. -/
def cleanLines (cs : List Char) : List (List Char) :=
  ((splitOnCh '\n' cs).map pyStripList).filter (fun l => l ≠ [])

/-! ## research_agent.py -/

/-- `ResearchResult` (pydantic model): all four fields default to `None`. -/
structure ResearchResult where
  id : Option String := none
  content : Option String := none
  sources : Option (List String) := none
  error : Option String := none
  deriving DecidableEq, Repr

/-- `get_api_key`: reads `DASH_API_KEY` from the process environment
(modelled as a lookup function). -/
def get_api_key (env : String → Option String) : Option String :=
  env "DASH_API_KEY"

namespace ResearchAgent

/-- `ResearchAgent.SUPPORTED_CONTENT_TYPES`. -/
def SUPPORTED_CONTENT_TYPES : List String := ["text", "text/plain"]

/-- The literal marker `"Sources:"` used by `ResearchAgent.invoke`. -/
def sourcesMarker : List Char := "Sources:".data

/-- The content/sources pair extracted by `ResearchAgent.invoke` from the raw
crew output. -/
structure ParsedOutput where
  content : String
  sources : List String
  deriving DecidableEq, Repr

/-- The parsing step of `ResearchAgent.invoke`:

```python
sources = []
content = response.raw
if "Sources:" in content:
    main_content, sources_section = content.split("Sources:", 1)
    content = main_content.strip()
    sources = [s.strip() for s in sources_section.strip().split("\n") if s.strip()]
```
-/
def parseAgentOutput (raw : String) : ParsedOutput :=
  match findSubIdx sourcesMarker raw.data with
  | none => { content := raw, sources := [] }
  | some i =>
    { content := pyStrip (String.mk (raw.data.take i)),
      sources :=
        (cleanLines (pyStripList (raw.data.drop (i + sourcesMarker.length)))).map
          String.mk }

/-- `ResearchAgent.invoke(query, session_id)`.  The CrewAI pipeline call
`self.research_crew.kickoff(inputs)` is abstracted as the oracle `kickoff`
(returning the raw text or raising), and `uuid4().hex` as `newId`.  The whole
body is wrapped in `try/except Exception`, so the function is total: a raised
exception is converted into a `ResearchResult` with only `id` and `error`
set. -/
def invoke (kickoff : String → Except String String) (newId : String)
    (query : String) (_sessionId : String) : ResearchResult :=
  match kickoff query with
  | .ok raw =>
    let p := parseAgentOutput raw
    { id := some newId, content := some p.content, sources := some p.sources }
  | .error e =>
    { id := some newId, error := some ("Error performing research: " ++ e) }

/-- `ResearchAgent.stream(query)`: unconditionally raises
`NotImplementedError`. -/
def stream (_query : String) : Except PyError Unit :=
  .error (.notImplementedError "Streaming is not supported by CrewAI.")

end ResearchAgent

/-! ## agent2agent protocol data types

These mirror the fields of the `agent2agent.types` pydantic models that the
repository's code actually reads or writes. -/

/-- A message part; the manager only distinguishes `TextPart` from the rest
(`isinstance(part, TextPart)`). -/
inductive Part where
  | text (s : String)
  | file (d : String)
  | data (d : String)
  deriving DecidableEq, Repr

/-- A protocol message: a role and a list of parts. -/
structure Message where
  role : String
  parts : List Part
  deriving DecidableEq, Repr

/-- `TaskState` enumeration. -/
inductive TaskState where
  | submitted
  | working
  | input_required
  | completed
  | canceled
  | failed
  | unknown
  deriving DecidableEq, Repr

/-- `TaskStatus`: state plus optional message (`message` defaults to `None`). -/
structure TaskStatus where
  state : TaskState
  message : Option Message := none
  deriving DecidableEq, Repr

/-- An `Artifact`: a list of parts. -/
structure Artifact where
  parts : List Part
  deriving DecidableEq, Repr

/-- A `Task` record as stored by the in-memory task manager: identifier,
session, current status and optional artifact list (`None` until first
initialized). -/
structure Task where
  id : String
  sessionId : String
  status : TaskStatus
  artifacts : Option (List Artifact) := none
  deriving DecidableEq, Repr

/-- `TaskSendParams` of a send-task request: the fields the manager reads. -/
structure TaskSendParams where
  id : String
  sessionId : String
  message : Message
  acceptedOutputModes : Option (List String) := none
  deriving DecidableEq, Repr

/-- A `SendTaskRequest`: JSON-RPC request id plus parameters. -/
structure SendTaskRequest where
  id : String
  params : TaskSendParams
  deriving DecidableEq, Repr

/-- A `SendTaskStreamingRequest`: same payload, streaming endpoint. -/
structure SendTaskStreamingRequest where
  id : String
  params : TaskSendParams
  deriving DecidableEq, Repr

/-- A JSON-RPC error object. -/
structure JSONRPCError where
  code : Int
  message : String
  deriving DecidableEq, Repr

/-- A `SendTaskResponse`: request id with either a task result or an error. -/
structure SendTaskResponse where
  id : String
  result : Option Task := none
  error : Option JSONRPCError := none
  deriving DecidableEq, Repr

/-- Modelled from the spec: the external utility
`utils.new_incompatible_types_error(request.id)` builds a structured
"incompatible modalities" protocol error response (the a2a
`ContentTypeNotSupportedError`, code -32005), not a task result. -/
def new_incompatible_types_error (requestId : String) : SendTaskResponse :=
  { id := requestId, error := some { code := -32005, message := "Incompatible content types" } }

/-- Modelled from the spec: the external utility
`utils.are_modalities_compatible(client_modes, server_modes)` deems the
request compatible when the client's accepted output modes share at least one
entry with the server's supported content types; an absent or empty client
list is treated as compatible (no constraint requested). -/
def are_modalities_compatible (clientModes : Option (List String))
    (serverModes : List String) : Bool :=
  match clientModes with
  | none => true
  | some [] => true
  | some l => l.any (fun x => serverModes.contains x)

/-! ## The in-memory task store -/

/-- Lookup in an association list keyed by strings (a Python `dict` read). -/
def listLookup {α : Type} (l : List (String × α)) (k : String) : Option α :=
  match l with
  | [] => none
  | (k', v) :: rest => if k' = k then some v else listLookup rest k

/-- Insert-or-replace in an association list (a Python `dict` write). -/
def listInsert {α : Type} (l : List (String × α)) (k : String) (v : α) :
    List (String × α) :=
  match l with
  | [] => [(k, v)]
  | (k', v') :: rest =>
    if k' = k then (k, v) :: rest else (k', v') :: listInsert rest k v

/-- The state owned by the `InMemoryTaskManager` base class: `self.tasks`
(task id → task record) and `self.task_messages` (task id → message
history). -/
structure Store where
  tasks : List (String × Task) := []
  task_messages : List (String × List Message) := []
  deriving DecidableEq, Repr

/-- Modelled from the spec: `upsert_task(params)` of the external in-memory
task manager base class.  If no record exists for the identifier, it creates
one with status "submitted", no artifacts, and a message history seeded with
the inbound message; if a record exists, it appends the inbound message to
that task's history. -/
def upsert_task (st : Store) (params : TaskSendParams) : Store × Task :=
  match listLookup st.tasks params.id with
  | none =>
    let t : Task :=
      { id := params.id, sessionId := params.sessionId,
        status := { state := TaskState.submitted } }
    ({ tasks := listInsert st.tasks params.id t,
       task_messages := listInsert st.task_messages params.id [params.message] },
     t)
  | some t =>
    ({ st with
        task_messages :=
          listInsert st.task_messages params.id
            ((listLookup st.task_messages params.id).getD [] ++ [params.message]) },
     t)

namespace ResearchTaskManager

/-- The artifact-extension step at the end of `_update_store`:

```python
if artifacts is not None:
    if task.artifacts is None:
        task.artifacts = []
    task.artifacts.extend(artifacts)
return task
```
-/
def applyArtifacts (st : Store) (taskId : String) (task : Task)
    (artifacts : Option (List Artifact)) : Store × Except PyError Task :=
  match artifacts with
  | none => (st, .ok task)
  | some arts =>
    let task2 := { task with artifacts := some (task.artifacts.getD [] ++ arts) }
    ({ st with tasks := listInsert st.tasks taskId task2 }, .ok task2)

/-- `ResearchTaskManager._update_store(task_id, status, artifacts)`, the whole
body of which runs under `async with self.lock` (one atomic step).  A missing
task id raises `ValueError("Task ... not found")` before any mutation; then
the status is replaced, the status's message (if any) is appended to
`self.task_messages[task_id]` (a `KeyError` if that dictionary lacks the key —
the mutations already made persist, as in Python), artifacts (if not `None`)
are appended to the task's artifact list after initializing it when absent,
and the updated record is returned. -/
def _update_store (st : Store) (task_id : String) (status : TaskStatus)
    (artifacts : Option (List Artifact)) : Store × Except PyError Task :=
  match listLookup st.tasks task_id with
  | none => (st, .error (.valueError ("Task " ++ task_id ++ " not found")))
  | some task0 =>
    let task1 := { task0 with status := status }
    let st1 : Store := { st with tasks := listInsert st.tasks task_id task1 }
    match status.message with
    | none => applyArtifacts st1 task_id task1 artifacts
    | some msg =>
      match listLookup st1.task_messages task_id with
      | none => (st1, .error (.keyError task_id))
      | some msgs =>
        let st2 : Store :=
          { st1 with
              task_messages := listInsert st1.task_messages task_id (msgs ++ [msg]) }
        applyArtifacts st2 task_id task1 artifacts

/-- `ResearchTaskManager._get_user_query(task_send_params)`: reads
`message.parts[0]` (an `IndexError` when empty) and raises
`ValueError("Only text parts are supported")` unless it is a text part. -/
def _get_user_query (params : TaskSendParams) : Except PyError String :=
  match params.message.parts with
  | [] => .error .indexError
  | p :: _ =>
    match p with
    | Part.text s => .ok s
    | _ => .error (.valueError "Only text parts are supported")

/-- The content formatting of `_invoke` on a `ResearchResult`:
`if not result.error:` re-joins non-empty sources under a `"Sources:"` header
after the content, otherwise the single text part carries the error string.
(A `None` content is rendered as the empty string here; `ResearchAgent.invoke`
never returns a result with `error` unset and `content` unset, so the case is
unreachable from the executor.) -/
def formatResultText (result : ResearchResult) : String :=
  if optStrTruthy result.error then result.error.getD ""
  else
    match result.sources with
    | some (s :: ss) =>
      result.content.getD "" ++ "\n\nSources:\n" ++ String.intercalate "\n" (s :: ss)
    | _ => result.content.getD ""

/-- `ResearchTaskManager._invoke(request)`.  The executor
`self.agent.invoke(query, sessionId)` is abstracted as the oracle `agent` (it
may raise; the code re-raises any such exception as
`ValueError("Error invoking agent: ...")`).  On an agent result it packs one
text part (content plus re-joined sources, or the error text), updates the
store to `COMPLETED` with that single artifact, and wraps the updated task in
a `SendTaskResponse`. -/
def _invoke (agent : String → String → Except String ResearchResult)
    (st : Store) (request : SendTaskRequest) : Store × Except PyError SendTaskResponse :=
  match _get_user_query request.params with
  | .error e => (st, .error e)
  | .ok query =>
    match agent query request.params.sessionId with
    | .error e => (st, .error (.valueError ("Error invoking agent: " ++ e)))
    | .ok result =>
      let parts := [Part.text (formatResultText result)]
      match _update_store st request.params.id
          { state := TaskState.completed } (some [{ parts := parts }]) with
      | (st2, .error e) => (st2, .error e)
      | (st2, .ok task) =>
        (st2, .ok { id := request.id, result := some task })

/-- `ResearchTaskManager.on_send_task(request)`: rejects incompatible accepted
output modes with a structured error before touching the store, otherwise
upserts the task and delegates to `_invoke`. -/
def on_send_task (agent : String → String → Except String ResearchResult)
    (st : Store) (request : SendTaskRequest) : Store × Except PyError SendTaskResponse :=
  if !are_modalities_compatible request.params.acceptedOutputModes
      ResearchAgent.SUPPORTED_CONTENT_TYPES then
    (st, .ok (new_incompatible_types_error request.id))
  else
    let st1 := (upsert_task st request.params).1
    _invoke agent st1 request

/-- What `on_send_task_subscribe` hands back to its caller. -/
inductive SubscribeOutcome where
  /-- a structured validation error response -/
  | errorResponse (e : JSONRPCError)
  /-- the Python body falls off the end and returns `None`: there is no
  async-iterable streaming response, so any attempt to consume one fails -/
  | noStream
  deriving DecidableEq, Repr

/-- `ResearchTaskManager.on_send_task_subscribe(request)`: the base-class
`self._validate_request` is abstracted as the oracle `validateRequest`.  On a
validation error that error is returned; otherwise the task is upserted and
the body ends without producing any streaming response. -/
def on_send_task_subscribe
    (validateRequest : SendTaskStreamingRequest → Option JSONRPCError)
    (st : Store) (request : SendTaskStreamingRequest) : Store × SubscribeOutcome :=
  match validateRequest request with
  | some e => (st, .errorResponse e)
  | none => ((upsert_task st request.params).1, .noStream)

/-- `ResearchTaskManager._stream_generator(request)`: unconditionally raises
`NotImplementedError("Not implemented")`. -/
def _stream_generator (_request : SendTaskRequest) :
    Except PyError (List SendTaskResponse) :=
  .error (.notImplementedError "Not implemented")

end ResearchTaskManager

/-! ## __main__.py -/

/-- The observable outcome of `main()`'s startup sequence. -/
inductive StartupOutcome where
  /-- the process called `exit(n)` before serving any request -/
  | exitCode (n : Nat)
  /-- the server was started; the LLM was constructed with the given
  `api_key` (from `get_api_key`, i.e. `DASH_API_KEY`) and `base_url`
  (`DASH_BASE_URL`) -/
  | serving (llmApiKey : Option String) (llmBaseUrl : Option String)
  deriving DecidableEq, Repr

/-- The startup sequence of `main(host, port)`:
`if not os.getenv("GOOGLE_API_KEY")` raises `MissingAPIKeyError`, which the
handler logs and turns into `exit(1)`; otherwise the `ResearchAgent` is built
(its `LLM` receives `api_key=get_api_key()` and `base_url=os.getenv("DASH_BASE_URL")`)
and the server starts serving. -/
def main_startup (env : String → Option String) : StartupOutcome :=
  if !optStrTruthy (env "GOOGLE_API_KEY") then .exitCode 1
  else .serving (get_api_key env) (env "DASH_BASE_URL")

/-! ## Sample values used by the witness theorems -/

/-- A sample inbound message with a single text part. -/
def sampleMsg : Message := { role := "user", parts := [Part.text "question"] }

/-- A sample task record as `upsert_task` would create it for id "t1". -/
def sampleTask : Task :=
  { id := "t1", sessionId := "s1", status := { state := TaskState.submitted } }

/-- A sample store holding `sampleTask` with its seeded message history. -/
def sampleStore : Store :=
  { tasks := [("t1", sampleTask)], task_messages := [("t1", [sampleMsg])] }

/-- A sample artifact with one text part. -/
def sampleArtifact : Artifact := { parts := [Part.text "answer"] }

/-- Append a character to the last field of a split (the effect of appending
a non-separator character to the split input). -/
def appendLast (d : Char) : List (List Char) → List (List Char)
  | [] => [[d]]
  | [l] => [l ++ [d]]
  | l :: ls => l :: appendLast d ls

/-- The specification's description of the sources list: the remainder after
the marker "is split on newlines, each non-empty trimmed line becomes one
entry of `sources`" (stated on the raw, unstripped remainder; the code first
strips the whole remainder, which `cleanLines_pyStripList` shows is
equivalent). -/
def specSourceLines (remainder : String) : List String :=
  (cleanLines remainder.data).map String.mk

/-- Sample send-task parameters matching `sampleStore`. -/
def sampleParams : TaskSendParams :=
  { id := "t1", sessionId := "s1", message := sampleMsg,
    acceptedOutputModes := some ["text"] }

/-- A sample send-task request. -/
def sampleRequest : SendTaskRequest := { id := "r1", params := sampleParams }

/-- A request accepting only an image output mode. -/
def sampleBadModesRequest : SendTaskRequest :=
  { id := "r9",
    params := { id := "t9", sessionId := "s9", message := sampleMsg,
                acceptedOutputModes := some ["image/png"] } }

/-- A sample streaming request. -/
def sampleStreamRequest : SendTaskStreamingRequest :=
  { id := "r2", params := sampleParams }

/-- A compatible request whose message's first part is a file part, on a task
id unknown to the sample store. -/
def sampleNonTextRequest : SendTaskRequest :=
  { id := "r3",
    params := { id := "t3", sessionId := "s3",
                message := { role := "user", parts := [Part.file "blob"] },
                acceptedOutputModes := some ["text"] } }

/-! ## Atomic-update machinery for the concurrency claim

The whole body of `_update_store` runs under the single store-wide lock
(`async with self.lock`), so every `_update_store` call is one atomic step
and a concurrent execution of any number of such calls is an arbitrary
serial order of these steps.  `runOps` runs one such order. -/

/-- One lock-protected `_update_store` call: its target task id, new status
and artifacts. -/
structure UpdateOp where
  tid : String
  status : TaskStatus
  artifacts : Option (List Artifact)
  deriving DecidableEq, Repr

/-- Run a serial order of atomic `_update_store` steps against the store. -/
def runOps (st : Store) (ops : List UpdateOp) : Store :=
  ops.foldl
    (fun s op => (ResearchTaskManager._update_store s op.tid op.status op.artifacts).1) st

/-- Two stores agree on everything observable about the task `tid`. -/
def agreesAt (s s' : Store) (tid : String) : Prop :=
  listLookup s.tasks tid = listLookup s'.tasks tid ∧
  listLookup s.task_messages tid = listLookup s'.task_messages tid

/-- The artifact-extension step of `_update_store` as a function on a task
record. -/
def applyArtsTask (t : Task) : Option (List Artifact) → Task
  | none => t
  | some xs => { t with artifacts := some (t.artifacts.getD [] ++ xs) }

/-- The artifact-extension step of `_update_store` as a function on the
optional artifact list. -/
def applyArts (cur : Option (List Artifact)) : Option (List Artifact) → Option (List Artifact)
  | none => cur
  | some xs => some (cur.getD [] ++ xs)

/-- What `_update_store` leaves in `tasks[tid]`, as a function of the prior
`tasks[tid]` and `task_messages[tid]` entries alone. -/
def updView (cur : Option Task) (curMsgs : Option (List Message))
    (status : TaskStatus) (arts : Option (List Artifact)) : Option Task :=
  match cur with
  | none => none
  | some t =>
    let t1 := { t with status := status }
    match status.message, curMsgs with
    | some _, none => some t1
    | some _, some _ => some (applyArtsTask t1 arts)
    | none, _ => some (applyArtsTask t1 arts)

/-- What `_update_store` leaves in `task_messages[tid]`, as a function of the
prior `tasks[tid]` and `task_messages[tid]` entries alone. -/
def updMsgsView (cur : Option Task) (curMsgs : Option (List Message))
    (status : TaskStatus) : Option (List Message) :=
  match cur with
  | none => curMsgs
  | some _ =>
    match status.message, curMsgs with
    | some m, some msgs => some (msgs ++ [m])
    | _, _ => curMsgs

/-- A second sample task, for the concurrency witness. -/
def sampleTask2 : Task :=
  { id := "t2", sessionId := "s2", status := { state := TaskState.submitted } }

/-- A sample store holding two tasks. -/
def sampleStore2 : Store :=
  { tasks := [("t1", sampleTask), ("t2", sampleTask2)],
    task_messages := [("t1", [sampleMsg]), ("t2", [sampleMsg])] }

/-- A serial order of updates interleaving two task identifiers. -/
def sampleOps : List UpdateOp :=
  [ { tid := "t1", status := { state := TaskState.working },
      artifacts := some [sampleArtifact] },
    { tid := "t2", status := { state := TaskState.completed },
      artifacts := some [{ parts := [Part.text "other"] }] },
    { tid := "t1", status := { state := TaskState.completed },
      artifacts := some [{ parts := [Part.text "more"] }] } ]

/-! ## Association-list lemmas -/

theorem listLookup_listInsert_self {α : Type} (l : List (String × α)) (k : String)
    (v : α) : listLookup (listInsert l k v) k = some v := by
  induction l with
  | nil => simp [listLookup, listInsert]
  | cons p rest ih =>
    obtain ⟨k', v'⟩ := p
    by_cases h : k' = k
    · simp [listLookup, listInsert, h]
    · simp [listLookup, listInsert, h, ih]

theorem listLookup_listInsert_ne {α : Type} (l : List (String × α)) (k k' : String)
    (v : α) (h : k ≠ k') : listLookup (listInsert l k v) k' = listLookup l k' := by
  induction l with
  | nil => simp [listLookup, listInsert, h]
  | cons p rest ih =>
    obtain ⟨k0, v0⟩ := p
    by_cases h0 : k0 = k
    · subst h0
      simp [listLookup, listInsert, h]
    · simp [listLookup, listInsert, h0, ih]

/-! ## C1 and C2: `_update_store` on present and absent task identifiers -/

/-- C1: for every task identifier present in the store (in a store whose
message history covers the task whenever the new status carries a message, as
`upsert_task` guarantees), `_update_store(task_id, status, artifacts)` replaces
the task's status with the given status; appends the status's message, when
there is one, to the task's message history (leaving the histories untouched
otherwise); appends the given artifacts, when not `None`, to the task's
artifact list after initializing it when absent; and returns exactly the
updated record now held in the store. -/
theorem update_store_found (st : Store) (tid : String) (status : TaskStatus)
    (artifacts : Option (List Artifact)) (t0 : Task)
    (ht : listLookup st.tasks tid = some t0)
    (hm : ∀ m, status.message = some m → (listLookup st.task_messages tid).isSome) :
    ∃ t', (ResearchTaskManager._update_store st tid status artifacts).2 = .ok t' ∧
      listLookup (ResearchTaskManager._update_store st tid status artifacts).1.tasks tid
        = some t' ∧
      t'.status = status ∧ t'.id = t0.id ∧
      t'.artifacts = (match artifacts with
        | none => t0.artifacts
        | some arts => some (t0.artifacts.getD [] ++ arts)) ∧
      (∀ m, status.message = some m →
        listLookup (ResearchTaskManager._update_store st tid status artifacts).1.task_messages tid
          = some ((listLookup st.task_messages tid).getD [] ++ [m])) ∧
      (status.message = none →
        (ResearchTaskManager._update_store st tid status artifacts).1.task_messages
          = st.task_messages) := by
  cases hsm : status.message with
  | none =>
    cases artifacts with
    | none =>
      refine ⟨{ t0 with status := status }, ?_⟩
      simp [ResearchTaskManager._update_store, ResearchTaskManager.applyArtifacts,
        ht, hsm, listLookup_listInsert_self]
    | some arts =>
      refine ⟨{ t0 with status := status, artifacts := some (t0.artifacts.getD [] ++ arts) }, ?_⟩
      simp [ResearchTaskManager._update_store, ResearchTaskManager.applyArtifacts,
        ht, hsm, listLookup_listInsert_self]
  | some m =>
    obtain ⟨msgs, hmsgs⟩ := Option.isSome_iff_exists.mp (hm m hsm)
    cases artifacts with
    | none =>
      refine ⟨{ t0 with status := status }, ?_⟩
      simp [ResearchTaskManager._update_store, ResearchTaskManager.applyArtifacts,
        ht, hsm, hmsgs, listLookup_listInsert_self]
    | some arts =>
      refine ⟨{ t0 with status := status, artifacts := some (t0.artifacts.getD [] ++ arts) }, ?_⟩
      simp [ResearchTaskManager._update_store, ResearchTaskManager.applyArtifacts,
        ht, hsm, hmsgs, listLookup_listInsert_self]

/-- Witness for C1 at a concrete store, status and artifact list. -/
theorem update_store_found_witness :
    ∃ t', (ResearchTaskManager._update_store sampleStore "t1"
        { state := TaskState.completed, message := some sampleMsg }
        (some [sampleArtifact])).2 = .ok t' ∧
      listLookup (ResearchTaskManager._update_store sampleStore "t1"
        { state := TaskState.completed, message := some sampleMsg }
        (some [sampleArtifact])).1.tasks "t1" = some t' ∧
      t'.status = { state := TaskState.completed, message := some sampleMsg } ∧
      t'.id = sampleTask.id ∧
      t'.artifacts = (match some [sampleArtifact] with
        | none => sampleTask.artifacts
        | some arts => some (sampleTask.artifacts.getD [] ++ arts)) ∧
      (∀ m, ({ state := TaskState.completed, message := some sampleMsg } : TaskStatus).message
          = some m →
        listLookup (ResearchTaskManager._update_store sampleStore "t1"
          { state := TaskState.completed, message := some sampleMsg }
          (some [sampleArtifact])).1.task_messages "t1"
          = some ((listLookup sampleStore.task_messages "t1").getD [] ++ [m])) ∧
      (({ state := TaskState.completed, message := some sampleMsg } : TaskStatus).message = none →
        (ResearchTaskManager._update_store sampleStore "t1"
          { state := TaskState.completed, message := some sampleMsg }
          (some [sampleArtifact])).1.task_messages = sampleStore.task_messages) :=
  update_store_found sampleStore "t1"
    { state := TaskState.completed, message := some sampleMsg }
    (some [sampleArtifact]) sampleTask (by decide) (fun _ _ => by decide)

/-- C2: `_update_store` on a task identifier absent from the store fails with
`ValueError("Task ... not found")` and leaves the entire store unchanged: no
record is created and no task's status, messages, or artifacts are touched. -/
theorem update_store_not_found (st : Store) (tid : String) (status : TaskStatus)
    (artifacts : Option (List Artifact))
    (h : listLookup st.tasks tid = none) :
    (ResearchTaskManager._update_store st tid status artifacts).2
        = .error (.valueError ("Task " ++ tid ++ " not found")) ∧
      (ResearchTaskManager._update_store st tid status artifacts).1 = st := by
  simp [ResearchTaskManager._update_store, h]

/-- Witness for C2: updating the never-upserted id "ghost" in the sample
store fails and mutates nothing. -/
theorem update_store_not_found_witness :
    (ResearchTaskManager._update_store sampleStore "ghost"
        { state := TaskState.completed } (some [sampleArtifact])).2
      = .error (.valueError ("Task " ++ "ghost" ++ " not found")) ∧
    (ResearchTaskManager._update_store sampleStore "ghost"
        { state := TaskState.completed } (some [sampleArtifact])).1 = sampleStore :=
  update_store_not_found sampleStore "ghost" { state := TaskState.completed }
    (some [sampleArtifact]) (by decide)

/-! ## C3: the output-partitioning of `ResearchAgent.invoke`

The code first strips the whole sources section and then splits it into
lines; the specification describes splitting the raw remainder into lines and
trimming each.  The lemmas below show the two agree, so the code refines the
spec's wording. -/

theorem consHead_ne_nil (d : Char) (L : List (List Char)) : consHead d L ≠ [] := by
  cases L <;> simp [consHead]

theorem splitOnCh_ne_nil (c : Char) (cs : List Char) : splitOnCh c cs ≠ [] := by
  cases cs with
  | nil => simp [splitOnCh]
  | cons d rest =>
    by_cases h : d == c
    · simp [splitOnCh, h]
    · simp only [splitOnCh, h, Bool.false_eq_true, if_false]
      exact consHead_ne_nil d (splitOnCh c rest)

theorem appendLast_cons (d : Char) (x : List Char) (ls : List (List Char))
    (h : ls ≠ []) : appendLast d (x :: ls) = x :: appendLast d ls := by
  cases ls with
  | nil => exact absurd rfl h
  | cons y ys => rfl

theorem consHead_append (d : Char) (L M : List (List Char)) (h : L ≠ []) :
    consHead d (L ++ M) = consHead d L ++ M := by
  cases L with
  | nil => exact absurd rfl h
  | cons l ls => simp [consHead]

theorem consHead_appendLast (e d : Char) (L : List (List Char)) (h : L ≠ []) :
    consHead e (appendLast d L) = appendLast d (consHead e L) := by
  cases L with
  | nil => exact absurd rfl h
  | cons l ls =>
    cases ls with
    | nil => simp [appendLast, consHead]
    | cons y ys =>
      rw [appendLast_cons d l (y :: ys) (by simp), consHead, consHead,
        appendLast_cons d (e :: l) (y :: ys) (by simp)]

theorem splitOnCh_append_sep (c : Char) (cs : List Char) :
    splitOnCh c (cs ++ [c]) = splitOnCh c cs ++ [[]] := by
  induction cs with
  | nil => simp [splitOnCh]
  | cons d rest ih =>
    by_cases h : d == c
    · simp [splitOnCh, h, ih]
    · simp only [List.cons_append, splitOnCh, h, Bool.false_eq_true, if_false,
        List.append_eq, ih]
      exact consHead_append d (splitOnCh c rest) [[]] (splitOnCh_ne_nil c rest)

theorem splitOnCh_append_other (c d : Char) (cs : List Char) (h : (d == c) = false) :
    splitOnCh c (cs ++ [d]) = appendLast d (splitOnCh c cs) := by
  induction cs with
  | nil => simp [splitOnCh, h, appendLast, consHead]
  | cons e rest ih =>
    by_cases he : e == c
    · simp only [List.cons_append, splitOnCh, he, if_true, List.append_eq, ih]
      rw [appendLast_cons d [] (splitOnCh c rest) (splitOnCh_ne_nil c rest)]
    · simp only [List.cons_append, splitOnCh, he, Bool.false_eq_true, if_false,
        List.append_eq, ih]
      exact consHead_appendLast e d (splitOnCh c rest) (splitOnCh_ne_nil c rest)

theorem pyStripList_cons_ws (c : Char) (l : List Char) (h : isPyWs c = true) :
    pyStripList (c :: l) = pyStripList l := by
  simp [pyStripList, List.dropWhile_cons, h]

theorem dropWhile_append_left {α : Type} (p : α → Bool) (l m : List α) :
    (l ++ m).dropWhile p =
      if (l.dropWhile p).isEmpty then m.dropWhile p else l.dropWhile p ++ m := by
  induction l with
  | nil => simp
  | cons a l ih =>
    by_cases h : p a
    · simpa [List.dropWhile_cons, h] using ih
    · simp [List.dropWhile_cons, h]

theorem pyStripList_append_ws (l : List Char) (d : Char) (h : isPyWs d = true) :
    pyStripList (l ++ [d]) = pyStripList l := by
  unfold pyStripList
  rw [dropWhile_append_left]
  cases hd : l.dropWhile isPyWs with
  | nil => simp [List.dropWhile_cons, h]
  | cons x xs => simp [List.reverse_append, List.dropWhile_cons, h]

theorem pyStripList_nil : pyStripList [] = [] := rfl

/-- Dropping a leading whitespace character does not change the cleaned-up
line list. -/
theorem cleanLines_cons_ws (c : Char) (cs : List Char) (h : isPyWs c = true) :
    cleanLines (c :: cs) = cleanLines cs := by
  by_cases hc : c == '\n'
  · simp [cleanLines, splitOnCh, hc, pyStripList_nil]
  · simp only [cleanLines, splitOnCh, hc, Bool.false_eq_true, if_false]
    cases hr : splitOnCh '\n' cs with
    | nil => exact absurd hr (splitOnCh_ne_nil '\n' cs)
    | cons l ls => simp [consHead, pyStripList_cons_ws c l h]

/-- Dropping all leading whitespace does not change the cleaned-up line
list. -/
theorem cleanLines_dropWhile_ws (cs : List Char) :
    cleanLines (cs.dropWhile isPyWs) = cleanLines cs := by
  induction cs with
  | nil => rfl
  | cons c cs ih =>
    by_cases h : isPyWs c
    · rw [List.dropWhile_cons_of_pos h, ih, cleanLines_cons_ws c cs h]
    · rw [List.dropWhile_cons_of_neg h]

/-- Dropping a trailing whitespace character does not change the cleaned-up
line list. -/
theorem cleanLines_append_ws (cs : List Char) (d : Char) (h : isPyWs d = true) :
    cleanLines (cs ++ [d]) = cleanLines cs := by
  by_cases hd : d == '\n'
  · have : d = '\n' := by simpa using hd
    subst this
    simp [cleanLines, splitOnCh_append_sep, pyStripList_nil]
  · rw [cleanLines, splitOnCh_append_other '\n' d cs (by simpa using hd)]
    have key : ∀ L : List (List Char), L ≠ [] →
        ((appendLast d L).map pyStripList).filter (fun l => l ≠ []) =
          (L.map pyStripList).filter (fun l => l ≠ []) := by
      intro L
      induction L with
      | nil => intro hL; exact absurd rfl hL
      | cons l ls ih =>
        intro _
        cases ls with
        | nil =>
          simp [appendLast, pyStripList_append_ws l d h]
        | cons y ys =>
          rw [appendLast_cons d l (y :: ys) (by simp)]
          simp only [List.map_cons, List.filter_cons]
          rw [ih (by simp)]
          simp [List.filter_cons]
    rw [key (splitOnCh '\n' cs) (splitOnCh_ne_nil '\n' cs)]
    rfl

/-- Dropping all trailing whitespace does not change the cleaned-up line
list. -/
theorem cleanLines_dropRight_ws (cs : List Char) :
    cleanLines ((cs.reverse.dropWhile isPyWs).reverse) = cleanLines cs := by
  induction cs using List.reverseRecOn with
  | nil => rfl
  | append_singleton cs a ih =>
    by_cases h : isPyWs a
    · rw [List.reverse_append]
      simp only [List.reverse_cons, List.reverse_nil, List.nil_append, List.cons_append]
      rw [List.dropWhile_cons_of_pos h, ih, cleanLines_append_ws cs a h]
    · rw [List.reverse_append]
      simp only [List.reverse_cons, List.reverse_nil, List.nil_append, List.cons_append]
      rw [List.dropWhile_cons_of_neg h, List.reverse_cons, List.reverse_reverse]

/-- Stripping the whole text before splitting it into cleaned-up lines (what
the code does) yields the same line list as splitting the unstripped text
(what the spec describes). -/
theorem cleanLines_pyStripList (cs : List Char) :
    cleanLines (pyStripList cs) = cleanLines cs := by
  unfold pyStripList
  rw [cleanLines_dropRight_ws (cs.dropWhile isPyWs), cleanLines_dropWhile_ws cs]

/-- `findSubIdx` finds the FIRST occurrence of the pattern: the pattern
occurs at the returned index and at no earlier index. -/
theorem findSubIdx_first (pat cs : List Char) (i : Nat)
    (h : findSubIdx pat cs = some i) :
    pat.isPrefixOf (cs.drop i) = true ∧
      ∀ j, j < i → pat.isPrefixOf (cs.drop j) = false := by
  induction cs generalizing i with
  | nil =>
    by_cases hp : pat.isPrefixOf ([] : List Char)
    · simp only [findSubIdx, hp, if_true, Option.some.injEq] at h
      subst h
      exact ⟨hp, fun j hj => absurd hj (Nat.not_lt_zero j)⟩
    · simp [findSubIdx, hp] at h
  | cons c rest ih =>
    by_cases hp : pat.isPrefixOf (c :: rest)
    · simp only [findSubIdx, hp, if_true, Option.some.injEq] at h
      subst h
      exact ⟨hp, fun j hj => absurd hj (Nat.not_lt_zero j)⟩
    · simp only [findSubIdx, hp, Bool.false_eq_true, if_false, Option.map_eq_some'] at h
      obtain ⟨i', hi', rfl⟩ := h
      obtain ⟨h1, h2⟩ := ih i' hi'
      refine ⟨h1, fun j hj => ?_⟩
      cases j with
      | zero => simpa using Bool.eq_false_iff.mpr hp
      | succ j' => exact h2 j' (Nat.lt_of_succ_lt_succ hj)

/-- C3: `ResearchAgent.invoke` partitions the raw output at the first
occurrence of the literal marker `"Sources:"`: the marker occurs at the split
index and at no earlier index, the text before it (trimmed) becomes
`content`, and each non-empty trimmed line of the remainder becomes one entry
of `sources`, in order.  When the marker is absent the full raw text becomes
`content` and `sources` is empty.  In particular the spec's concrete example
holds. -/
theorem invoke_output_partition (raw : String) :
    (findSubIdx ResearchAgent.sourcesMarker raw.data = none →
      (ResearchAgent.parseAgentOutput raw).content = raw ∧
      (ResearchAgent.parseAgentOutput raw).sources = []) ∧
    (∀ i, findSubIdx ResearchAgent.sourcesMarker raw.data = some i →
      ResearchAgent.sourcesMarker.isPrefixOf (raw.data.drop i) = true ∧
      (∀ j, j < i → ResearchAgent.sourcesMarker.isPrefixOf (raw.data.drop j) = false) ∧
      (ResearchAgent.parseAgentOutput raw).content
        = pyStrip (String.mk (raw.data.take i)) ∧
      (ResearchAgent.parseAgentOutput raw).sources
        = specSourceLines (String.mk (raw.data.drop (i + ResearchAgent.sourcesMarker.length)))) ∧
    ResearchAgent.parseAgentOutput "A B\nSources:\nhttp://x\nhttp://y"
      = { content := "A B", sources := ["http://x", "http://y"] } := by
  refine ⟨fun h => ?_, fun i h => ?_, by decide⟩
  · simp [ResearchAgent.parseAgentOutput, h]
  · obtain ⟨h1, h2⟩ := findSubIdx_first _ _ _ h
    refine ⟨h1, h2, ?_, ?_⟩
    · simp [ResearchAgent.parseAgentOutput, h]
    · simp [ResearchAgent.parseAgentOutput, h, specSourceLines, cleanLines_pyStripList]

/-- Witness for C3: the marker-present branch instantiated at the spec's
concrete example, where the marker sits at index 4. -/
theorem invoke_output_partition_witness :
    ResearchAgent.sourcesMarker.isPrefixOf
        (("A B\nSources:\nhttp://x\nhttp://y" : String).data.drop 4) = true ∧
    (∀ j, j < 4 → ResearchAgent.sourcesMarker.isPrefixOf
        (("A B\nSources:\nhttp://x\nhttp://y" : String).data.drop j) = false) ∧
    (ResearchAgent.parseAgentOutput "A B\nSources:\nhttp://x\nhttp://y").content
      = pyStrip (String.mk (("A B\nSources:\nhttp://x\nhttp://y" : String).data.take 4)) ∧
    (ResearchAgent.parseAgentOutput "A B\nSources:\nhttp://x\nhttp://y").sources
      = specSourceLines (String.mk (("A B\nSources:\nhttp://x\nhttp://y" : String).data.drop
          (4 + ResearchAgent.sourcesMarker.length))) :=
  (invoke_output_partition "A B\nSources:\nhttp://x\nhttp://y").2.1 4 (by decide)

/-! ## C4: `ResearchAgent.invoke` is total and fills exactly one of
content/error -/

/-- C4: `ResearchAgent.invoke` always returns a `ResearchResult` (the model is
a total function even though the underlying pipeline call `kickoff` may
raise — the `try/except` swallows every exception), and exactly one of
content/error is populated: on pipeline success `content` and `sources` are
set and `error` is unset; on any pipeline exception `error` is set (to the
formatted message) and `content` and `sources` are unset. -/
theorem invoke_total_one_of_content_error (kickoff : String → Except String String)
    (newId query sessionId : String) :
    (∀ raw, kickoff query = .ok raw →
      (ResearchAgent.invoke kickoff newId query sessionId).content.isSome = true ∧
      (ResearchAgent.invoke kickoff newId query sessionId).sources.isSome = true ∧
      (ResearchAgent.invoke kickoff newId query sessionId).error = none) ∧
    (∀ e, kickoff query = .error e →
      (ResearchAgent.invoke kickoff newId query sessionId).error
          = some ("Error performing research: " ++ e) ∧
      (ResearchAgent.invoke kickoff newId query sessionId).content = none ∧
      (ResearchAgent.invoke kickoff newId query sessionId).sources = none) := by
  constructor
  · intro raw h
    simp [ResearchAgent.invoke, h]
  · intro e h
    simp [ResearchAgent.invoke, h]

/-- Witness for C4: one succeeding and one raising pipeline. -/
theorem invoke_total_one_of_content_error_witness :
    ((ResearchAgent.invoke (fun _ => .ok "hello") "id1" "q" "s").content.isSome = true ∧
      (ResearchAgent.invoke (fun _ => .ok "hello") "id1" "q" "s").sources.isSome = true ∧
      (ResearchAgent.invoke (fun _ => .ok "hello") "id1" "q" "s").error = none) ∧
    ((ResearchAgent.invoke (fun _ => .error "boom") "id1" "q" "s").error
        = some ("Error performing research: " ++ "boom") ∧
      (ResearchAgent.invoke (fun _ => .error "boom") "id1" "q" "s").content = none ∧
      (ResearchAgent.invoke (fun _ => .error "boom") "id1" "q" "s").sources = none) :=
  ⟨(invoke_total_one_of_content_error (fun _ => .ok "hello") "id1" "q" "s").1 "hello" rfl,
   (invoke_total_one_of_content_error (fun _ => .error "boom") "id1" "q" "s").2 "boom" rfl⟩

/-! ## C5: a failed research run is surfaced as an ordinarily completed task -/

/-- C5: when the executor reports failure — a `ResearchResult` whose `error`
is set (executor-produced errors are always non-empty strings, they carry the
`"Error performing research: "` prefix) — `_invoke` surfaces it as an
ordinarily completed task: the response is a task result (no protocol-level
error field), the task is moved to the `COMPLETED` terminal state, and one
text artifact whose text is the error message is appended. -/
theorem invoke_surfaces_error_as_completed
    (agent : String → String → Except String ResearchResult)
    (st : Store) (request : SendTaskRequest) (query : String)
    (result : ResearchResult) (e : String) (t0 : Task)
    (hq : ResearchTaskManager._get_user_query request.params = .ok query)
    (ha : agent query request.params.sessionId = .ok result)
    (he : result.error = some e) (hne : e ≠ "")
    (ht : listLookup st.tasks request.params.id = some t0) :
    ∃ t', (ResearchTaskManager._invoke agent st request).2
        = .ok { id := request.id, result := some t' } ∧
      listLookup (ResearchTaskManager._invoke agent st request).1.tasks request.params.id
        = some t' ∧
      t'.status = { state := TaskState.completed } ∧
      t'.artifacts = some (t0.artifacts.getD []
        ++ [{ parts := [Part.text e] }]) := by
  have hne' : (e == "") = false := by simpa using hne
  refine ⟨{ t0 with status := { state := TaskState.completed }, artifacts := some (t0.artifacts.getD [] ++ [{ parts := [Part.text e] }]) },
    ?_, ?_, rfl, rfl⟩ <;>
  · simp [ResearchTaskManager._invoke, hq, ha, ResearchTaskManager.formatResultText,
      optStrTruthy, he, hne', ResearchTaskManager._update_store, ht,
      ResearchTaskManager.applyArtifacts, listLookup_listInsert_self]

/-- Witness for C5: an agent whose result carries only an error, invoked
against the sample store. -/
theorem invoke_surfaces_error_as_completed_witness :
    ∃ t', (ResearchTaskManager._invoke
          (fun _ _ => .ok { error := some "Error performing research: boom" })
          sampleStore sampleRequest).2
        = .ok { id := sampleRequest.id, result := some t' } ∧
      listLookup (ResearchTaskManager._invoke
          (fun _ _ => .ok { error := some "Error performing research: boom" })
          sampleStore sampleRequest).1.tasks sampleRequest.params.id
        = some t' ∧
      t'.status = { state := TaskState.completed } ∧
      t'.artifacts = some (sampleTask.artifacts.getD []
        ++ [{ parts := [Part.text "Error performing research: boom"] }]) :=
  invoke_surfaces_error_as_completed
    (fun _ _ => .ok { error := some "Error performing research: boom" })
    sampleStore sampleRequest "question"
    { error := some "Error performing research: boom" }
    "Error performing research: boom" sampleTask rfl rfl rfl (by decide) (by decide)

/-! ## C6: incompatible output modes are rejected before any effect -/

/-- C6: a request whose accepted output modes are incompatible with `"text"`
and `"text/plain"` is answered with the structured incompatible-types error,
with the store returned unchanged (no upsert, no update) — and since the
equation holds for every executor oracle, the executor is never invoked. -/
theorem on_send_task_incompatible
    (agent : String → String → Except String ResearchResult)
    (st : Store) (request : SendTaskRequest)
    (h : are_modalities_compatible request.params.acceptedOutputModes
        ResearchAgent.SUPPORTED_CONTENT_TYPES = false) :
    ResearchTaskManager.on_send_task agent st request
      = (st, .ok (new_incompatible_types_error request.id)) := by
  simp [ResearchTaskManager.on_send_task, h]

/-- Witness for C6: the image-only request is rejected with the store
untouched, for an arbitrary concrete executor. -/
theorem on_send_task_incompatible_witness :
    ResearchTaskManager.on_send_task (fun _ _ => .error "never called")
        sampleStore sampleBadModesRequest
      = (sampleStore, .ok (new_incompatible_types_error sampleBadModesRequest.id)) :=
  on_send_task_incompatible (fun _ _ => .error "never called") sampleStore
    sampleBadModesRequest (by decide)

/-! ## C7: streaming is unsupported everywhere -/

/-- C7: every call to a streaming variant fails to stream.
`ResearchAgent.stream` raises `NotImplementedError` for every input, the
manager's `_stream_generator` raises `NotImplementedError` for every request,
and `on_send_task_subscribe` on a valid request upserts the task but produces
no streaming response at all (the Python body returns `None`, so any attempt
to consume the streaming response fails). -/
theorem streaming_unsupported (q : String) (request : SendTaskRequest)
    (validateRequest : SendTaskStreamingRequest → Option JSONRPCError)
    (st : Store) (sreq : SendTaskStreamingRequest) :
    ResearchAgent.stream q
        = .error (.notImplementedError "Streaming is not supported by CrewAI.") ∧
    ResearchTaskManager._stream_generator request
        = .error (.notImplementedError "Not implemented") ∧
    (validateRequest sreq = none →
      ResearchTaskManager.on_send_task_subscribe validateRequest st sreq
        = ((upsert_task st sreq.params).1, .noStream)) := by
  refine ⟨rfl, rfl, fun h => ?_⟩
  simp [ResearchTaskManager.on_send_task_subscribe, h]

/-- Witness for C7: concrete query, request, always-valid validator. -/
theorem streaming_unsupported_witness :
    ResearchAgent.stream "q"
        = .error (.notImplementedError "Streaming is not supported by CrewAI.") ∧
    ResearchTaskManager._stream_generator sampleRequest
        = .error (.notImplementedError "Not implemented") ∧
    ResearchTaskManager.on_send_task_subscribe (fun _ => none) sampleStore
        sampleStreamRequest
      = ((upsert_task sampleStore sampleStreamRequest.params).1,
         .noStream) :=
  ⟨(streaming_unsupported "q" sampleRequest (fun _ => none) sampleStore
      sampleStreamRequest).1,
   (streaming_unsupported "q" sampleRequest (fun _ => none) sampleStore
      sampleStreamRequest).2.1,
   (streaming_unsupported "q" sampleRequest (fun _ => none) sampleStore
      sampleStreamRequest).2.2 rfl⟩

/-! ## C8: the startup credential check tests a key the program never uses

`main` aborts startup when `GOOGLE_API_KEY` is missing, but the LLM is
configured with `get_api_key()` = `DASH_API_KEY` (and `DASH_BASE_URL`);
`GOOGLE_API_KEY` is used nowhere else.  So the mandatory LLM API key
(`DASH_API_KEY`) is NOT a startup-time fatal condition: with `GOOGLE_API_KEY`
set and `DASH_API_KEY` absent the process starts serving with no LLM
credential at all, and conversely a process with a perfectly good LLM key but
no `GOOGLE_API_KEY` exits.  The claim matches the code's evident intent (the
guard exists to make a missing credential fatal at startup); the code checks
the wrong variable. -/

/-- C8 (evaluation of the code at the failing inputs): with only
`GOOGLE_API_KEY` in the environment the process serves with `llmApiKey =
none` (the missing LLM key becomes a per-request failure), and with only
`DASH_API_KEY` in the environment the process exits with status 1 despite the
LLM key being present. -/
theorem startup_checks_unused_key :
    main_startup (fun k => if k = "GOOGLE_API_KEY" then some "google-key" else none)
        = .serving none none ∧
    get_api_key (fun k => if k = "GOOGLE_API_KEY" then some "google-key" else none)
        = none ∧
    main_startup (fun k => if k = "DASH_API_KEY" then some "llm-key" else none)
        = .exitCode 1 := by
  refine ⟨by decide, by decide, by decide⟩

/-! ## C10: a compatible request with a non-text first part upserts, then
raises -/

/-- C10: on a request with compatible output modes whose message's first part
is not a text part, `on_send_task` first upserts the task and then the
`ValueError("Only text parts are supported")` raised by `_get_user_query`
propagates out of the handler: the result is an unstructured exception, with
the store left in its upserted (already mutated) state; in particular a
previously unknown task identifier now has a record despite the failure. -/
theorem on_send_task_nontext_first_part
    (agent : String → String → Except String ResearchResult)
    (st : Store) (request : SendTaskRequest) (p : Part) (ps : List Part)
    (hc : are_modalities_compatible request.params.acceptedOutputModes
        ResearchAgent.SUPPORTED_CONTENT_TYPES = true)
    (hp : request.params.message.parts = p :: ps)
    (hnt : ∀ s, p ≠ Part.text s) :
    ResearchTaskManager.on_send_task agent st request
      = ((upsert_task st request.params).1,
         .error (.valueError "Only text parts are supported")) ∧
    (listLookup st.tasks request.params.id = none →
      listLookup (ResearchTaskManager.on_send_task agent st request).1.tasks
        request.params.id ≠ none) := by
  have main : ResearchTaskManager.on_send_task agent st request
      = ((upsert_task st request.params).1,
         .error (.valueError "Only text parts are supported")) := by
    cases p with
    | text s => exact absurd rfl (hnt s)
    | file d =>
      simp [ResearchTaskManager.on_send_task, hc, ResearchTaskManager._invoke,
        ResearchTaskManager._get_user_query, hp]
    | data d =>
      simp [ResearchTaskManager.on_send_task, hc, ResearchTaskManager._invoke,
        ResearchTaskManager._get_user_query, hp]
  refine ⟨main, fun hnone => ?_⟩
  rw [main]
  simp [upsert_task, hnone, listLookup_listInsert_self]

/-- Witness for C10: the file-part request mutates the store by upsert and
then fails with the unstructured `ValueError`. -/
theorem on_send_task_nontext_first_part_witness :
    ResearchTaskManager.on_send_task (fun _ _ => .error "never called")
        sampleStore sampleNonTextRequest
      = ((upsert_task sampleStore sampleNonTextRequest.params).1,
         .error (.valueError "Only text parts are supported")) ∧
    (listLookup sampleStore.tasks sampleNonTextRequest.params.id = none →
      listLookup (ResearchTaskManager.on_send_task (fun _ _ => .error "never called")
          sampleStore sampleNonTextRequest).1.tasks
        sampleNonTextRequest.params.id ≠ none) :=
  on_send_task_nontext_first_part (fun _ _ => .error "never called") sampleStore
    sampleNonTextRequest (Part.file "blob") [] (by decide) rfl
    (fun s h => Part.noConfusion h)

/-! ## C9: lock-serialized updates do not interleave across tasks -/

theorem listLookup_listInsert {α : Type} (l : List (String × α)) (k k' : String)
    (v : α) :
    listLookup (listInsert l k v) k' = if k = k' then some v else listLookup l k' := by
  by_cases h : k = k'
  · subst h
    simp [listLookup_listInsert_self]
  · simp [h, listLookup_listInsert_ne l k k' v h]

theorem applyArtsTask_artifacts (t : Task) (a : Option (List Artifact)) :
    (applyArtsTask t a).artifacts = applyArts t.artifacts a := by
  cases a <;> rfl

/-- The entries `_update_store` leaves at its own key are a function of the
prior entries at that key alone. -/
theorem update_store_lookup_self (st : Store) (tid : String) (status : TaskStatus)
    (arts : Option (List Artifact)) :
    listLookup (ResearchTaskManager._update_store st tid status arts).1.tasks tid
        = updView (listLookup st.tasks tid) (listLookup st.task_messages tid) status arts ∧
    listLookup (ResearchTaskManager._update_store st tid status arts).1.task_messages tid
        = updMsgsView (listLookup st.tasks tid) (listLookup st.task_messages tid) status := by
  cases ht : listLookup st.tasks tid with
  | none => simp [ResearchTaskManager._update_store, ht, updView, updMsgsView]
  | some t =>
    cases hsm : status.message with
    | none =>
      cases arts with
      | none =>
        simp [ResearchTaskManager._update_store, ResearchTaskManager.applyArtifacts,
          ht, hsm, updView, updMsgsView, applyArtsTask, listLookup_listInsert_self]
      | some xs =>
        simp [ResearchTaskManager._update_store, ResearchTaskManager.applyArtifacts,
          ht, hsm, updView, updMsgsView, applyArtsTask, listLookup_listInsert_self]
    | some m =>
      cases hmsgs : listLookup st.task_messages tid with
      | none =>
        simp [ResearchTaskManager._update_store, ht, hsm, hmsgs, updView,
          updMsgsView, listLookup_listInsert_self]
      | some msgs =>
        cases arts with
        | none =>
          simp [ResearchTaskManager._update_store, ResearchTaskManager.applyArtifacts,
            ht, hsm, hmsgs, updView, updMsgsView, applyArtsTask,
            listLookup_listInsert_self]
        | some xs =>
          simp [ResearchTaskManager._update_store, ResearchTaskManager.applyArtifacts,
            ht, hsm, hmsgs, updView, updMsgsView, applyArtsTask,
            listLookup_listInsert_self]

/-- `_update_store` leaves every other key's entries untouched. -/
theorem update_store_lookup_other (st : Store) (tid : String) (status : TaskStatus)
    (arts : Option (List Artifact)) (k : String) (h : k ≠ tid) :
    listLookup (ResearchTaskManager._update_store st tid status arts).1.tasks k
        = listLookup st.tasks k ∧
    listLookup (ResearchTaskManager._update_store st tid status arts).1.task_messages k
        = listLookup st.task_messages k := by
  have hne : ¬tid = k := fun e => h e.symm
  cases ht : listLookup st.tasks tid with
  | none => simp [ResearchTaskManager._update_store, ht]
  | some t =>
    cases hsm : status.message with
    | none =>
      cases arts with
      | none =>
        simp [ResearchTaskManager._update_store, ResearchTaskManager.applyArtifacts,
          ht, hsm, listLookup_listInsert, hne]
      | some xs =>
        simp [ResearchTaskManager._update_store, ResearchTaskManager.applyArtifacts,
          ht, hsm, listLookup_listInsert, hne]
    | some m =>
      cases hmsgs : listLookup st.task_messages tid with
      | none =>
        simp [ResearchTaskManager._update_store, ht, hsm, hmsgs,
          listLookup_listInsert, hne]
      | some msgs =>
        cases arts with
        | none =>
          simp [ResearchTaskManager._update_store, ResearchTaskManager.applyArtifacts,
            ht, hsm, hmsgs, listLookup_listInsert, hne]
        | some xs =>
          simp [ResearchTaskManager._update_store, ResearchTaskManager.applyArtifacts,
            ht, hsm, hmsgs, listLookup_listInsert, hne]

/-- Stores agreeing at `tid` still agree at `tid` after the same atomic
update (to any key). -/
theorem update_store_agreesAt (s s' : Store) (u tid : String) (status : TaskStatus)
    (arts : Option (List Artifact)) (h : agreesAt s s' tid) :
    agreesAt (ResearchTaskManager._update_store s u status arts).1
      (ResearchTaskManager._update_store s' u status arts).1 tid := by
  obtain ⟨h1, h2⟩ := h
  by_cases hu : u = tid
  · subst hu
    obtain ⟨v1, v2⟩ := update_store_lookup_self s u status arts
    obtain ⟨w1, w2⟩ := update_store_lookup_self s' u status arts
    exact ⟨by rw [v1, w1, h1, h2], by rw [v2, w2, h1, h2]⟩
  · have htk : tid ≠ u := fun e => hu e.symm
    obtain ⟨v1, v2⟩ := update_store_lookup_other s u status arts tid htk
    obtain ⟨w1, w2⟩ := update_store_lookup_other s' u status arts tid htk
    exact ⟨by rw [v1, w1, h1], by rw [v2, w2, h2]⟩

/-- Running a serial order of updates leaves a given task in the same state
as running only that task's own updates, in the same relative order. -/
theorem runOps_agrees (tid : String) (ops : List UpdateOp) :
    ∀ s s' : Store, agreesAt s s' tid →
      agreesAt (runOps s ops) (runOps s' (ops.filter (fun op => op.tid == tid))) tid := by
  induction ops with
  | nil => exact fun s s' h => h
  | cons op ops ih =>
    intro s s' h
    by_cases hop : (op.tid == tid) = true
    · rw [List.filter_cons, if_pos hop]
      exact ih _ _ (update_store_agreesAt s s' op.tid tid op.status op.artifacts h)
    · rw [List.filter_cons, if_neg hop]
      have hne : tid ≠ op.tid := by
        intro e
        exact hop (by simp [e])
      obtain ⟨v1, v2⟩ := update_store_lookup_other s op.tid op.status op.artifacts tid hne
      exact ih _ s' ⟨by rw [v1]; exact h.1, by rw [v2]; exact h.2⟩

/-- Running updates that all target `tid` (with the task present and its
message history present, as `upsert_task` guarantees) folds exactly those
updates' artifacts onto the task's artifact list. -/
theorem runOps_artifacts_own (tid : String) (ops : List UpdateOp) :
    (∀ op ∈ ops, op.tid = tid) →
    ∀ (st : Store) (t0 : Task), listLookup st.tasks tid = some t0 →
      (listLookup st.task_messages tid).isSome = true →
      ∃ t', listLookup (runOps st ops).tasks tid = some t' ∧
        t'.artifacts = ops.foldl (fun a op => applyArts a op.artifacts) t0.artifacts := by
  induction ops with
  | nil => exact fun _ st t0 ht _ => ⟨t0, ht, rfl⟩
  | cons op ops ih =>
    intro hall st t0 ht hm
    have hop : op.tid = tid := hall op (List.mem_cons_self op ops)
    have hall' : ∀ o ∈ ops, o.tid = tid := fun o ho => hall o (List.mem_cons_of_mem op ho)
    obtain ⟨msgs, hmsgs⟩ := Option.isSome_iff_exists.mp hm
    obtain ⟨v1, v2⟩ := update_store_lookup_self st tid op.status op.artifacts
    have hstep : runOps st (op :: ops)
        = runOps ((ResearchTaskManager._update_store st op.tid op.status op.artifacts).1) ops :=
      rfl
    rw [hstep, hop]
    have hnt : listLookup ((ResearchTaskManager._update_store st tid op.status op.artifacts).1).tasks tid
        = some (applyArtsTask { t0 with status := op.status } op.artifacts) := by
      rw [v1, ht, hmsgs]
      cases hsm : op.status.message <;> simp [updView, hsm]
    have hnm : (listLookup ((ResearchTaskManager._update_store st tid op.status op.artifacts).1).task_messages tid).isSome = true := by
      rw [v2, ht, hmsgs]
      cases hsm : op.status.message <;> simp [updMsgsView, hsm]
    obtain ⟨t', h1, h2⟩ := ih hall' _ _ hnt hnm
    refine ⟨t', h1, ?_⟩
    rw [h2, List.foldl_cons, applyArtsTask_artifacts]

/-- C9: every mutation of `_update_store` happens while holding the single
store-wide lock, so each call is one atomic step and a concurrent execution
of calls on the same or different task identifiers is an arbitrary serial
order of such steps.  For every such order `ops`: (a) the final state of any
task `tid` (record and message history alike) is exactly what running only
its own updates produces — no cross-task interleaving and no partial write is
ever observed, a status write always carries its accompanying artifact
append; and (b) when the task is present (with its message history, as
`upsert_task` guarantees), its final artifact list is exactly its own
updates' artifacts folded on in order. -/
theorem update_store_serializes (st : Store) (ops : List UpdateOp) (tid : String) :
    agreesAt (runOps st ops) (runOps st (ops.filter (fun op => op.tid == tid))) tid ∧
    (∀ t0, listLookup st.tasks tid = some t0 →
      (listLookup st.task_messages tid).isSome = true →
      ∃ t', listLookup (runOps st ops).tasks tid = some t' ∧
        t'.artifacts = (ops.filter (fun op => op.tid == tid)).foldl
            (fun a op => applyArts a op.artifacts) t0.artifacts) := by
  have hiso := runOps_agrees tid ops st st ⟨rfl, rfl⟩
  refine ⟨hiso, fun t0 ht hm => ?_⟩
  have hall : ∀ op ∈ ops.filter (fun op => op.tid == tid), op.tid = tid := by
    intro op hop
    exact eq_of_beq (List.mem_filter.mp hop).2
  obtain ⟨t', h1, h2⟩ :=
    runOps_artifacts_own tid (ops.filter (fun op => op.tid == tid)) hall st t0 ht hm
  refine ⟨t', ?_, h2⟩
  rw [hiso.1]
  exact h1

/-- Witness for C9: a serial order interleaving updates to "t1" and "t2"
against the two-task sample store. -/
theorem update_store_serializes_witness :
    agreesAt (runOps sampleStore2 sampleOps)
      (runOps sampleStore2 (sampleOps.filter (fun op => op.tid == "t1"))) "t1" ∧
    ∃ t', listLookup (runOps sampleStore2 sampleOps).tasks "t1" = some t' ∧
      t'.artifacts = (sampleOps.filter (fun op => op.tid == "t1")).foldl
          (fun a op => applyArts a op.artifacts) sampleTask.artifacts :=
  ⟨(update_store_serializes sampleStore2 sampleOps "t1").1,
   (update_store_serializes sampleStore2 sampleOps "t1").2 sampleTask
     (by decide) (by decide)⟩

end ResearcherAgent
